import Mathlib

/-!
Verification development for the t.sentinel GRASS GIS addons
(t.sentinel.import and t.sentinel.mask).

The Python sources are shallowly embedded: pure fragments become Lean
functions, Python exceptions become an explicit result type, floats become
rationals, and the GRASS side effects (raster creation, register files,
warnings) are modelled by the data they would produce.
-/

/-- Python exception kinds raised by the embedded code, plus grass.fatal. -/
inductive PyErr where
  | indexError
  | zeroDivisionError
  | nameError
  | valueError
  | fatal (msg : String)
deriving DecidableEq, Repr

/-- Result of running a piece of Python code: a value or an exception. -/
inductive PyResult (α : Type) where
  | ok (a : α)
  | error (e : PyErr)
deriving DecidableEq, Repr

/-- Python list indexing l[i] for nonnegative i: raises IndexError out of range. -/
def pyIdx {α : Type} (l : List α) (i : Nat) : PyResult α :=
  match l.drop i with
  | [] => .error .indexError
  | x :: _ => .ok x

/-- Helper for pySplit: split a character list on every occurrence of sep,
keeping empty groups, like Python str.split with an explicit separator. -/
def splitListOn (sep : Char) : List Char → List (List Char)
  | [] => [[]]
  | c :: cs =>
    if c = sep then [] :: splitListOn sep cs
    else
      match splitListOn sep cs with
      | [] => [[c]]
      | g :: gs => (c :: g) :: gs

/-- Python s.split(sep) for a one-character separator. -/
def pySplit (sep : Char) (s : String) : List String :=
  (splitListOn sep s.toList).map String.mk

/-- Python slice s[:b]. -/
def pySliceTo (s : String) (b : Nat) : String :=
  String.mk (s.toList.take b)

/-- Python slice s[a:]. -/
def pySliceFrom (s : String) (a : Nat) : String :=
  String.mk (s.toList.drop a)

/-- Python slice s[a:b]. -/
def pySlice (s : String) (a b : Nat) : String :=
  String.mk ((s.toList.drop a).take (b - a))

/-- Boolean prefix test on character lists. -/
def startsWithList : List Char → List Char → Bool
  | [], _ => true
  | _ :: _, [] => false
  | a :: as, b :: bs => a = b && startsWithList as bs

/-- Helper for strContains: does sub occur in the list? -/
def strContainsAux (sub : List Char) : List Char → Bool
  | [] => sub.isEmpty
  | c :: cs => startsWithList sub (c :: cs) || strContainsAux sub cs

/-- Python substring test: sub in s. -/
def strContains (sub s : String) : Bool :=
  strContainsAux sub.toList s.toList

/-- Fuel-driven engine of pyReplace; the fuel bounds the number of characters
consumed, so structural recursion suffices. -/
def pyReplaceFuel (pat rep : List Char) : Nat → List Char → List Char
  | 0, l => l
  | _ + 1, [] => []
  | n + 1, c :: cs =>
    if !pat.isEmpty && startsWithList pat (c :: cs) then
      rep ++ pyReplaceFuel pat rep n ((c :: cs).drop pat.length)
    else c :: pyReplaceFuel pat rep n cs

/-- Python s.replace(pat, rep) for a nonempty pattern: replace all
non-overlapping occurrences left to right. -/
def pyReplace (s pat rep : String) : String :=
  String.mk (pyReplaceFuel pat.toList rep.toList s.toList.length s.toList)

/-- Helper for pySet: keep the elements not already seen, in order. -/
def dedupAux {α : Type} [DecidableEq α] (seen : List α) : List α → List α
  | [] => []
  | x :: xs => if x ∈ seen then dedupAux seen xs else x :: dedupAux (x :: seen) xs

/-- Deterministic model of Python list(set(l)): first occurrence of each
element, in first-occurrence order. -/
def pySet {α : Type} [DecidableEq α] (l : List α) : List α :=
  dedupAux [] l

/-- Run a Python for-loop body over a list, aborting at the first exception
(the body produces one output element per input). -/
def mapPy {α β : Type} (f : α → PyResult β) : List α → PyResult (List β)
  | [] => .ok []
  | x :: xs =>
    match f x with
    | .error e => .error e
    | .ok y =>
      match mapPy f xs with
      | .error e => .error e
      | .ok ys => .ok (y :: ys)

/-- Python one-argument round on a rational: round half to even. -/
def pyRound (q : ℚ) : ℤ :=
  let f : ℤ := Int.fdiv q.num (q.den : ℤ)
  let r : ℚ := q - (f : ℚ)
  if r < 1 / 2 then f
  else if 1 / 2 < r then f + 1
  else if f % 2 = 0 then f else f + 1

/-- Helper for strToNat?: accumulate decimal digits, none on a non-digit. -/
def natOfDigitsAux : List Char → Nat → Option Nat
  | [], acc => some acc
  | c :: cs, acc =>
    if c.isDigit then natOfDigitsAux cs (acc * 10 + (c.toNat - 48)) else none

/-- Parse a nonempty all-digit string as a natural number. -/
def strToNat? (s : String) : Option Nat :=
  match s.toList with
  | [] => none
  | l => natOfDigitsAux l 0

/-- Timestamp value held in a Python datetime object, as built by
datetime.strptime on the STRDS times (microseconds are dropped: the code
never formats them back out). -/
structure PyDateTime where
  year : Nat
  month : Nat
  day : Nat
  hour : Nat
  minute : Nat
  second : Nat
deriving DecidableEq, Repr

/-- Zero-padded two-digit field of strftime. -/
def pad2 (n : Nat) : String :=
  if n < 10 then "0" ++ toString n else toString n

/-- Zero-padded four-digit field of strftime. -/
def pad4 (n : Nat) : String :=
  if n < 10 then "000" ++ toString n
  else if n < 100 then "00" ++ toString n
  else if n < 1000 then "0" ++ toString n
  else toString n

/-- strftime('%Y%m%d') of a datetime. -/
def fmtYMD (d : PyDateTime) : String :=
  pad4 d.year ++ pad2 d.month ++ pad2 d.day

/-- strftime('%Y-%m-%d %H:%M:%S') of a datetime. -/
def fmtFull (d : PyDateTime) : String :=
  pad4 d.year ++ "-" ++ pad2 d.month ++ "-" ++ pad2 d.day ++ " " ++
    pad2 d.hour ++ ":" ++ pad2 d.minute ++ ":" ++ pad2 d.second

/-- Model of datetime.strptime(time, fmt) with fmt chosen by the code as
'%Y-%m-%d %H:%M:%S.%f' when the string contains a dot and
'%Y-%m-%d %H:%M:%S' otherwise; none models the ValueError raised on a
string that matches neither format. -/
def parseTime (time : String) : Option PyDateTime :=
  match pySplit ' ' time with
  | [d, t0] =>
    let t := match pySplit '.' t0 with
      | t1 :: _ => t1
      | [] => t0
    match pySplit '-' d, pySplit ':' t with
    | [y, mo, da], [h, mi, s] =>
      match strToNat? y, strToNat? mo, strToNat? da,
            strToNat? h, strToNat? mi, strToNat? s with
      | some yn, some mon, some dan, some hn, some min, some sn =>
        some ⟨yn, mon, dan, hn, min, sn⟩
      | _, _, _, _, _, _ => none
    | _, _ => none
  | _ => none

/-! ## t.sentinel.import: resource budget (ResourceBudget) -/

/-- Effective worker count and the per-worker memory split of
t.sentinel.import main (number_of_scenes = len(os.listdir(download_dir)),
nprocs_final = min(number_of_scenes, nprocs), memory_per_proc =
round(memory/nprocs_final)); the division raises ZeroDivisionError when
nprocs_final is 0. -/
def importBudget (nprocs : Nat) (memory : ℚ) (numberOfScenes : Nat) : PyResult (Nat × ℤ) :=
  let nprocsFinal := min numberOfScenes nprocs
  if nprocsFinal = 0 then .error .zeroDivisionError
  else .ok (nprocsFinal, pyRound (memory / (nprocsFinal : ℚ)))

/-- freeRAM of t.sentinel.import: sum of available memory and free swap,
converted to the requested unit and scaled by percent. The psutil import
is guarded by try/except at module load, so when psutil is absent the
references to psutil.virtual_memory / psutil.swap_memory raise NameError. -/
def freeRAM (psutilOk : Bool) (memAvailable swapFree : ℚ) (unit : String)
    (percent : ℚ) : PyResult ℤ :=
  if psutilOk = false then .error .nameError
  else
    let memoryGB := (memAvailable + swapFree) / 1024 ^ 3
    let memoryMB := (memAvailable + swapFree) / 1024 ^ 2
    if unit = "MB" then .ok (pyRound (memoryMB * percent / 100))
    else if unit = "GB" then .ok (pyRound (memoryGB * percent / 100))
    else .error (.fatal ("Memory unit <" ++ unit ++ "> not supported"))

/-- Relevant slice of the options dict mutated by test_nprocs_memory,
together with the warnings written to the warning channel. -/
structure NpmState where
  nprocs : ℤ
  memory : ℤ
  warnings : List String
deriving DecidableEq, Repr

/-- test_nprocs_memory of t.sentinel.import: cap nprocs at the CPU count
with a warning, then clamp the requested memory to abs(freeRAM('MB', 100))
with warnings; a missing psutil surfaces here as the propagated exception
of freeRAM. -/
def test_nprocs_memory (psutilOk : Bool) (cpuCount : Nat)
    (memAvailable swapFree : ℚ) (st : NpmState) : PyResult NpmState :=
  let st1 :=
    if (cpuCount : ℤ) < st.nprocs then
      { st with
        nprocs := (cpuCount : ℤ),
        warnings := st.warnings ++
          ["Using " ++ toString st.nprocs ++ " parallel processes but only " ++
            toString (cpuCount : ℤ) ++ " CPUs available. Setting nprocs to " ++
            toString (cpuCount : ℤ) ++ "."] }
    else st
  match freeRAM psutilOk memAvailable swapFree "MB" 100 with
  | .error e => .error e
  | .ok fr =>
    let freeRam := |fr|
    if freeRam < st1.memory then
      .ok { st1 with
            memory := freeRam,
            warnings := st1.warnings ++
              ["Using " ++ toString st1.memory ++ " MB but only " ++
                toString freeRam ++ " MB RAM available.",
               "Set used memory to " ++ toString freeRam ++ " MB."] }
    else .ok st1

/-! ## t.sentinel.import: temporal register construction (TemporalIndexer) -/

/-- One line of a t.register file: raster name, date, clock time and, on
GRASS 7.9 or higher for the band register, the semantic band label. -/
structure RegisterLine where
  name : String
  dateStr : String
  timeStr : String
  bandTag : Option String
deriving DecidableEq, Repr

/-- Body of the band register loop of t.sentinel.import (lines 591-601):
band_str from split('_')[2] with 'B0'/'B' stripped, date from
split('_')[1].split('T')[0] sliced as YYYY-MM-DD, clock time from
split('_')[1].split('T')[1] sliced as HH:MM:SS. Index errors of the
Python subscripts are surfaced as IndexError. -/
def buildRegisterLine (g79 : Bool) (name : String) : PyResult RegisterLine :=
  match pyIdx (pySplit '_' name) 2 with
  | .error e => .error e
  | .ok bandSeg =>
    match pyIdx (pySplit '_' name) 1 with
    | .error e => .error e
    | .ok seg =>
      match pyIdx (pySplit 'T' seg) 0 with
      | .error e => .error e
      | .ok d1 =>
        match pyIdx (pySplit 'T' seg) 1 with
        | .error e => .error e
        | .ok t1 =>
          .ok { name := name,
                dateStr := pySliceTo d1 4 ++ "-" ++ pySlice d1 4 6 ++ "-" ++
                  pySliceFrom d1 6,
                timeStr := pySliceTo t1 2 ++ ":" ++ pySlice t1 2 4 ++ ":" ++
                  pySliceFrom t1 4,
                bandTag :=
                  if g79 then some ("S2_" ++ pyReplace (pyReplace bandSeg "B0" "") "B" "")
                  else none }

/-- Band register file of t.sentinel.import: the loop runs over
list(set(maplist)), one line per iteration. -/
def buildRegisterFile (g79 : Bool) (maplist : List String) : PyResult (List RegisterLine) :=
  mapPy (buildRegisterLine g79) (pySet maplist)

/-- Body of the cloud register loop of t.sentinel.import (lines 623-628):
same positional timestamp parse, no band label. -/
def buildCloudLine (name : String) : PyResult RegisterLine :=
  match pyIdx (pySplit '_' name) 1 with
  | .error e => .error e
  | .ok seg =>
    match pyIdx (pySplit 'T' seg) 0 with
    | .error e => .error e
    | .ok d1 =>
      match pyIdx (pySplit 'T' seg) 1 with
      | .error e => .error e
      | .ok t1 =>
        .ok { name := name,
              dateStr := pySliceTo d1 4 ++ "-" ++ pySlice d1 4 6 ++ "-" ++
                pySliceFrom d1 6,
              timeStr := pySliceTo t1 2 ++ ":" ++ pySlice t1 2 4 ++ ":" ++
                pySliceFrom t1 4,
              bandTag := none }

/-- Cloud register file of t.sentinel.import: the loop runs over cloudlist
as collected, without deduplication. -/
def buildCloudRegisterFile (cloudlist : List String) : PyResult (List RegisterLine) :=
  mapPy buildCloudLine cloudlist

/-! ## t.sentinel.import: fan-in of worker mapsets (ResultReconciler) -/

/-- Contents of one worker mapset at reconciliation time. -/
structure MapsetContent where
  mapset : String
  vectors : List String
  rasters : List String
deriving DecidableEq, Repr

/-- Raster half of the copy loop: a raster containing 'CLOUDS' goes to
cloudlist, the rest to maplist. -/
def collectRasters : List String → List String → List String → List String × List String
  | [], maplist, cloudlist => (maplist, cloudlist)
  | r :: rest, maplist, cloudlist =>
    if strContains "CLOUDS" r then collectRasters rest maplist (cloudlist ++ [r])
    else collectRasters rest (maplist ++ [r]) cloudlist

/-- Copy loop of t.sentinel.import (lines 528-540): vectors are appended
to cloudlist, rasters are split by the 'CLOUDS' substring. -/
def collectLoop : List MapsetContent → List String → List String → List String × List String
  | [], maplist, cloudlist => (maplist, cloudlist)
  | ms :: rest, maplist, cloudlist =>
    let cl1 := cloudlist ++ ms.vectors
    let p := collectRasters ms.rasters maplist cl1
    collectLoop rest p.1 p.2

/-- Fan-in step of t.sentinel.import (lines 520-540): verify the current
mapset is still the one recorded at the start; on mismatch grass.fatal
aborts before any map is copied, otherwise the copy loop produces the
maplist/cloudlist pair. -/
def copyImportResults (startCurMapset curMapset : String)
    (mapsets : List MapsetContent) : PyResult (List String × List String) :=
  if curMapset ≠ startCurMapset then
    .error (.fatal ("New mapset is <" ++ curMapset ++ ">, but should be <" ++
      startCurMapset ++ ">"))
  else .ok (collectLoop mapsets [] [])

/-! ## t.sentinel.mask: scene assembly from the input STRDS -/

/-- One raster of the input STRDS as seen by t.sentinel.mask main: its name,
its STRDS time string, and the min/max printed by r.info -r in the current
region ("NULL" for an all-NULL raster). -/
structure RastInput where
  name : String
  time : String
  statMin : String
  statMax : String
deriving DecidableEq, Repr

/-- One entry of the s2_scenes dict of t.sentinel.mask. The band keys and
the date start out as None; clouds is always set at creation; the shadows
key exists only when output_shadows is requested and the metadata key only
when a threshold or shadows require it (both are then non-None). Band
tokens other than the seven known ones become fresh dict keys, collected
in extra. -/
structure S2SceneDict where
  b02 : Option String
  b03 : Option String
  b04 : Option String
  b08 : Option String
  b8a : Option String
  b11 : Option String
  b12 : Option String
  date : Option PyDateTime
  clouds : String
  shadows : Option String
  metadata : Option String
  extra : List (String × String)
deriving DecidableEq, Repr

/-- Fresh s2_scene dict (t.sentinel.mask lines 209-222), created while
processing raster rast of scene name. -/
def newScene (outputShadows : Bool) (threshold : ℚ) (metadataOpt jsonFolder : String)
    (name rast : String) : S2SceneDict :=
  { b02 := none, b03 := none, b04 := none, b08 := none,
    b8a := none, b11 := none, b12 := none, date := none,
    clouds := name ++ "_clouds",
    shadows := if outputShadows then some (name ++ "_shadows") else none,
    metadata :=
      if 0 < threshold ∨ outputShadows then
        (if metadataOpt = "default" then
          some (jsonFolder ++ "/" ++ rast ++ "/description.json")
        else if metadataOpt ≠ "" then
          some (metadataOpt ++ "/" ++ rast ++ "/description.json")
        else none)
      else none,
    extra := [] }

/-- Dict assignment s2_scenes[name][band] = rast for the band key parsed
from the raster name. -/
def setBand (s : S2SceneDict) (band rast : String) : S2SceneDict :=
  if band = "B02" then { s with b02 := some rast }
  else if band = "B03" then { s with b03 := some rast }
  else if band = "B04" then { s with b04 := some rast }
  else if band = "B08" then { s with b08 := some rast }
  else if band = "B8A" then { s with b8a := some rast }
  else if band = "B11" then { s with b11 := some rast }
  else if band = "B12" then { s with b12 := some rast }
  else { s with extra := s.extra ++ [(band, rast)] }

/-- Warning emitted for an all-NULL raster (t.sentinel.mask lines 201-203). -/
def nullWarning (rast : String) : String :=
  "Raster " ++ rast ++ " only consists of NULL() in current region. " ++
    "Cloud/shadow detection is skipped."

/-- Ordered-dict lookup on the scene association list. -/
def lookupScene : List (String × S2SceneDict) → String → Option S2SceneDict
  | [], _ => none
  | (k, v) :: rest, n => if k = n then some v else lookupScene rest n

/-- Ordered-dict write: update in place, or append a new key at the end. -/
def setScene : List (String × S2SceneDict) → String → S2SceneDict →
    List (String × S2SceneDict)
  | [], n, v => [(n, v)]
  | (k, w) :: rest, n, v =>
    if k = n then (k, v) :: rest else (k, w) :: setScene rest n v

/-- Date assignment of the assembly loop: parse the STRDS time into the
date on the scene's first raster, a ValueError aborting the run when the
time string matches neither strptime format. -/
def setDate (scene1 : S2SceneDict) (time : String) : PyResult S2SceneDict :=
  if scene1.date.isNone then
    match parseTime time with
    | some dt => .ok { scene1 with date := some dt }
    | none => .error .valueError
  else .ok scene1

/-- Scene dict the loop works on for scene name sname: the existing dict
entry, or a fresh one when the name is not in the dict yet. -/
def sceneFor (os : Bool) (threshold : ℚ) (metadataOpt jsonFolder : String)
    (acc : List (String × S2SceneDict)) (sname rast : String) : S2SceneDict :=
  match lookupScene acc sname with
  | some s => s
  | none => newScene os threshold metadataOpt jsonFolder sname rast

/-- Body of the assembly loop for one non-NULL raster: split the raster
name, create the scene dict on first sight, store the band raster under
its band key, and assign the date. -/
def processRaster (os : Bool) (threshold : ℚ) (metadataOpt jsonFolder : String)
    (acc : List (String × S2SceneDict)) (r : RastInput) :
    PyResult (List (String × S2SceneDict)) :=
  match pyIdx (pySplit '_' r.name) 0 with
  | .error e => .error e
  | .ok p0 =>
    match pyIdx (pySplit '_' r.name) 1 with
    | .error e => .error e
    | .ok p1 =>
      match pyIdx (pySplit '_' r.name) 2 with
      | .error e => .error e
      | .ok band =>
        match setDate (setBand (sceneFor os threshold metadataOpt jsonFolder acc
            (p0 ++ "_" ++ p1) r.name) band r.name) r.time with
        | .error e => .error e
        | .ok scene2 => .ok (setScene acc (p0 ++ "_" ++ p1) scene2)

/-- Scene-assembly loop of t.sentinel.mask main (lines 197-230): skip
all-NULL rasters with a warning, otherwise process the raster into the
scene dict. -/
def assembleLoop (os : Bool) (threshold : ℚ) (metadataOpt jsonFolder : String) :
    List RastInput → List (String × S2SceneDict) → List String →
    PyResult (List (String × S2SceneDict) × List String)
  | [], acc, warns => .ok (acc, warns)
  | r :: rest, acc, warns =>
    if r.statMin = "NULL" && r.statMax = "NULL" then
      assembleLoop os threshold metadataOpt jsonFolder rest acc
        (warns ++ [nullWarning r.name])
    else
      match processRaster os threshold metadataOpt jsonFolder acc r with
      | .error e => .error e
      | .ok acc2 => assembleLoop os threshold metadataOpt jsonFolder rest acc2 warns

/-- Scene assembly of t.sentinel.mask, starting from an empty dict and no
warnings. -/
def assembleScenes (os : Bool) (threshold : ℚ) (metadataOpt jsonFolder : String)
    (inputs : List RastInput) : PyResult (List (String × S2SceneDict) × List String) :=
  assembleLoop os threshold metadataOpt jsonFolder inputs [] []

/-- A scene dict still holding a None among the values iterated by the
completeness check; only the seven band keys and the date can be None. -/
def sceneIncomplete (s : S2SceneDict) : Bool :=
  s.b02.isNone || s.b03.isNone || s.b04.isNone || s.b08.isNone ||
    s.b8a.isNone || s.b11.isNone || s.b12.isNone || s.date.isNone

/-- Completeness check of t.sentinel.mask (lines 232-235): any None value
in any scene dict is a grass.fatal for the whole run. -/
def checkAllBands (scenes : List (String × S2SceneDict)) : PyResult Unit :=
  if scenes.any (fun p => sceneIncomplete p.2) then
    .error (.fatal "Not all needed bands are given")
  else .ok ()

/-- Assembly followed by the completeness check, the prefix of
t.sentinel.mask main before any mask work is dispatched. -/
def maskScenePhase (os : Bool) (threshold : ℚ) (metadataOpt jsonFolder : String)
    (inputs : List RastInput) : PyResult (List (String × S2SceneDict) × List String) :=
  match assembleScenes os threshold metadataOpt jsonFolder inputs with
  | .error e => .error e
  | .ok (scenes, warns) =>
    match checkAllBands scenes with
    | .error e => .error e
    | .ok _ => .ok (scenes, warns)

/-! ## t.sentinel.mask: threshold decision and worker dispatch (MaskMergeEngine) -/

/-- Threshold decision of t.sentinel.mask (lines 251-259): with a positive
threshold, a scene whose metadata CLOUDY_PIXEL_PERCENTAGE is strictly
below it is not computed. -/
def computingClouds (threshold pct : ℚ) : Bool :=
  if 0 < threshold then
    if pct < threshold then false else true
  else true

/-- Scenes for which the dispatch loop (lines 247-292) actually queues an
i.sentinel.mask.worker module; pctOf gives the CLOUDY_PIXEL_PERCENTAGE
read from the scene's metadata json. -/
def dispatchedScenes (threshold : ℚ) (pctOf : String → ℚ)
    (scenes : List (String × S2SceneDict)) : List (String × S2SceneDict) :=
  scenes.filter (fun p => computingClouds threshold (pctOf p.1))

/-- Band inputs handed to one i.sentinel.mask.worker call. -/
structure MaskWorkUnit where
  blue : String
  green : String
  red : String
  nir : String
  nir8a : String
  swir11 : String
  swir12 : String
  cloudRaster : String
deriving DecidableEq, Repr

/-- Work unit built from a scene dict (after the completeness check the
band values are all set; getD stands for the direct dict read). -/
def unitOf (s : S2SceneDict) : MaskWorkUnit :=
  { blue := s.b02.getD "", green := s.b03.getD "", red := s.b04.getD "",
    nir := s.b08.getD "", nir8a := s.b8a.getD "", swir11 := s.b11.getD "",
    swir12 := s.b12.getD "", cloudRaster := s.clouds }

/-- All work units queued by the dispatch loop. -/
def dispatchUnits (threshold : ℚ) (pctOf : String → ℚ)
    (scenes : List (String × S2SceneDict)) : List MaskWorkUnit :=
  (dispatchedScenes threshold pctOf scenes).map (fun p => unitOf p.2)

/-- The raster names one work unit reads. -/
def unitInputs (u : MaskWorkUnit) : List String :=
  [u.blue, u.green, u.red, u.nir, u.nir8a, u.swir11, u.swir12]

/-! ## t.sentinel.mask: per-scene result copy (ResultReconciler) -/

/-- Final state of one scene's mask raster after the copy loop
(lines 304-348). -/
inductive MaskOutcome where
  | nullRaster
  | copied (name : String)
  | reclassified (name : String)
deriving DecidableEq, Repr

/-- grass.find_file on the worker mapset: the mapset only exists when a
work unit was dispatched for the scene, and the file only when that worker
wrote the mask. -/
def workerFileFound (dispatched workerProduced : Bool) : Bool :=
  dispatched && workerProduced

/-- Copy phase for one mask raster: if the worker file is found, either
r.reclass.area with the area threshold (falling back to a null raster when
it fails, "image is considered cloudfree") or a plain g.copy; if it is not
found the mask is created as a null raster by r.mapcalc. -/
def finalMask (found minSizeSet reclassOk : Bool) (maskName : String) : MaskOutcome :=
  if found then
    if minSizeSet then
      if reclassOk then .reclassified maskName else .nullRaster
    else .copied maskName
  else .nullRaster

/-- Fan-in step of t.sentinel.mask (lines 295-348): verify the current
mapset is unchanged, then run the copy phase for every scene's cloud mask;
fileFound tells whether the per-scene worker mapset holds the mask. -/
def copyMaskResults (startCurMapset curMapset : String)
    (scenes : List (String × S2SceneDict)) (fileFound : String → Bool)
    (minSizeClouds reclassOk : Bool) : PyResult (List MaskOutcome) :=
  if curMapset ≠ startCurMapset then
    .error (.fatal ("New mapset is <" ++ curMapset ++ ">, but should be <" ++
      startCurMapset ++ ">"))
  else
    .ok (scenes.map (fun p =>
      finalMask (fileFound p.2.clouds) minSizeClouds reclassOk p.2.clouds))

/-! ## t.sentinel.mask: date-keyed merge and register files (MaskMergeEngine) -/

/-- Merge-phase view of one s2_scenes entry: after the completeness check
every scene has a date, and the merge phase only reads the name, date and
mask pointers. -/
structure SceneRec where
  name : String
  date : PyDateTime
  clouds : String
  shadows : String
deriving DecidableEq, Repr

/-- One tempdict of the grouping pass (lines 356-371). -/
structure DateGroup where
  date : PyDateTime
  scenes : List String
  clouds : List String
  shadows : List String
deriving DecidableEq, Repr

/-- Name of the merged cloud artifact of a date:
'clouds_patched_' + strftime('%Y%m%d'). -/
def cloudPatchName (d : PyDateTime) : String :=
  "clouds_patched_" ++ fmtYMD d

/-- Name of the merged shadow artifact of a date. -/
def shadowPatchName (d : PyDateTime) : String :=
  "shadows_patched_" ++ fmtYMD d

/-- Grouping pass of the merge (lines 350-371): one group per unique date,
holding the member scene names and their mask pointers; the shadow list is
only filled when output_shadows is requested. -/
def datesScenes (os : Bool) (scenes : List SceneRec) : List DateGroup :=
  (pySet (scenes.map SceneRec.date)).map (fun d =>
    let members := scenes.filter (fun s => decide (s.date = d))
    { date := d,
      scenes := members.map SceneRec.name,
      clouds := members.map SceneRec.clouds,
      shadows := if os then members.map SceneRec.shadows else [] })

/-- Pointer rewrite of the patch pass for one scene and one group
(lines 373-389): in a group of two or more scenes, every member scene's
cloud pointer (and shadow pointer, when enabled) is redirected to the
patched artifact of the group's date. -/
def updScene (os : Bool) (g : DateGroup) (s : SceneRec) : SceneRec :=
  if 1 < g.scenes.length then
    if s.name ∈ g.scenes then
      { s with
        clouds := cloudPatchName g.date,
        shadows := if os then shadowPatchName g.date else s.shadows }
    else s
  else s

/-- Patch pass over all date groups. -/
def patchPass (os : Bool) (scenes : List SceneRec) (groups : List DateGroup) :
    List SceneRec :=
  groups.foldl (fun acc g => acc.map (updScene os g)) scenes

/-- Whole merge step of t.sentinel.mask: group by date, then patch every
group of two or more scenes. -/
def patchScenes (os : Bool) (scenes : List SceneRec) : List SceneRec :=
  patchPass os scenes (datesScenes os scenes)

/-- Register-file loop of t.sentinel.mask (lines 396-406 for clouds,
417-427 for shadows): one line per mask pointer not registered yet,
with the scene date formatted as '%Y-%m-%d %H:%M:%S'. -/
def registerLoop (get : SceneRec → String) :
    List SceneRec → List (String × String) → List String → List (String × String)
  | [], entries, _ => entries
  | s :: rest, entries, registered =>
    if get s ∈ registered then registerLoop get rest entries registered
    else registerLoop get rest (entries ++ [(get s, fmtFull s.date)])
      (registered ++ [get s])

/-- Register file built from scratch for one mask product. -/
def registerMasks (get : SceneRec → String) (scenes : List SceneRec) :
    List (String × String) :=
  registerLoop get scenes [] []

/-- Is there a group of the given date with two or more member scenes? -/
def hasBigGroup (groups : List DateGroup) (d : PyDateTime) : Bool :=
  groups.any (fun g => decide (g.date = d) && decide (1 < g.scenes.length))

/-- Every band raster name stored in a scene dict. -/
def bandValues (s : S2SceneDict) : List String :=
  s.b02.toList ++ s.b03.toList ++ s.b04.toList ++ s.b08.toList ++
    s.b8a.toList ++ s.b11.toList ++ s.b12.toList ++ s.extra.map Prod.snd

/-! ## Helper lemmas -/

@[simp]
theorem pyIdx_zero {α : Type} (x : α) (l : List α) : pyIdx (x :: l) 0 = .ok x := rfl

@[simp]
theorem pyIdx_succ {α : Type} (x : α) (l : List α) (i : Nat) :
    pyIdx (x :: l) (i + 1) = pyIdx l i := rfl

theorem pyIdx_of_length_le {α : Type} {l : List α} {i : Nat} (h : l.length ≤ i) :
    pyIdx l i = .error .indexError := by
  unfold pyIdx
  rw [List.drop_eq_nil_of_le h]

theorem int_fdiv_one (n : ℤ) : Int.fdiv n 1 = n := by
  rcases n with (_ | m) | m <;> simp [Int.fdiv]

theorem pyRound_intCast (n : ℤ) : pyRound ((n : ℚ)) = n := by
  simp only [pyRound, Rat.intCast_num, Rat.intCast_den, Nat.cast_one, int_fdiv_one,
    sub_self]
  norm_num

theorem mem_dedupAux {α : Type} [DecidableEq α] (seen l : List α) (x : α) :
    x ∈ dedupAux seen l ↔ x ∈ l ∧ x ∉ seen := by
  induction l generalizing seen with
  | nil => simp [dedupAux]
  | cons a as ih =>
    by_cases ha : a ∈ seen
    · simp only [dedupAux, if_pos ha, ih, List.mem_cons]
      constructor
      · rintro ⟨hx, hns⟩
        exact ⟨Or.inr hx, hns⟩
      · rintro ⟨hx | hx, hns⟩
        · exact absurd (hx ▸ ha) hns
        · exact ⟨hx, hns⟩
    · simp only [dedupAux, if_neg ha, List.mem_cons, ih, List.mem_cons]
      constructor
      · rintro (rfl | ⟨hx, hns⟩)
        · exact ⟨Or.inl rfl, ha⟩
        · exact ⟨Or.inr hx, fun hc => hns (Or.inr hc)⟩
      · rintro ⟨hx | hx, hns⟩
        · exact Or.inl hx
        · by_cases hxa : x = a
          · exact Or.inl hxa
          · exact Or.inr ⟨hx, fun hc => (hc.elim hxa hns)⟩

theorem nodup_dedupAux {α : Type} [DecidableEq α] (seen l : List α) :
    (dedupAux seen l).Nodup := by
  induction l generalizing seen with
  | nil => simp [dedupAux]
  | cons a as ih =>
    by_cases ha : a ∈ seen
    · simpa [dedupAux, if_pos ha] using ih seen
    · rw [dedupAux, if_neg ha]
      refine List.nodup_cons.mpr ⟨?_, ih (a :: seen)⟩
      intro hmem
      exact ((mem_dedupAux (a :: seen) as a).mp hmem).2 (List.mem_cons_self a seen)

theorem pySet_mem {α : Type} [DecidableEq α] (l : List α) (x : α) :
    x ∈ pySet l ↔ x ∈ l := by
  simp [pySet, mem_dedupAux]

theorem pySet_nodup {α : Type} [DecidableEq α] (l : List α) : (pySet l).Nodup :=
  nodup_dedupAux [] l

theorem mapPy_ok_name {f : String → PyResult RegisterLine}
    (hf : ∀ a b, f a = .ok b → b.name = a) :
    ∀ l out, mapPy f l = .ok out → out.map RegisterLine.name = l := by
  intro l
  induction l with
  | nil =>
    intro out h
    cases h
    rfl
  | cons x xs ih =>
    intro out h
    unfold mapPy at h
    cases hfx : f x with
    | error e => rw [hfx] at h; cases h
    | ok y =>
      rw [hfx] at h
      cases hrest : mapPy f xs with
      | error e => rw [hrest] at h; cases h
      | ok ys =>
        rw [hrest] at h
        cases h
        simp [hf x y hfx, ih ys hrest]

theorem buildRegisterLine_name (g79 : Bool) (a : String) (b : RegisterLine)
    (h : buildRegisterLine g79 a = .ok b) : b.name = a := by
  unfold buildRegisterLine at h
  repeat' split at h
  all_goals cases h <;> rfl

theorem buildCloudLine_name (a : String) (b : RegisterLine)
    (h : buildCloudLine a = .ok b) : b.name = a := by
  unfold buildCloudLine at h
  repeat' split at h
  all_goals cases h <;> rfl

/-- The names written into the band register file are exactly the distinct
names of maplist, in first-occurrence order. -/
theorem registerFile_names (g79 : Bool) (maplist : List String)
    (lines : List RegisterLine) (h : buildRegisterFile g79 maplist = .ok lines) :
    lines.map RegisterLine.name = pySet maplist :=
  mapPy_ok_name (buildRegisterLine_name g79) (pySet maplist) lines h

/-- The names written into the cloud register file are cloudlist itself,
occurrence for occurrence. -/
theorem cloudRegisterFile_names (cloudlist : List String)
    (lines : List RegisterLine) (h : buildCloudRegisterFile cloudlist = .ok lines) :
    lines.map RegisterLine.name = cloudlist :=
  mapPy_ok_name buildCloudLine_name cloudlist lines h

/-! ## Claim C2: threshold skip -/

/-- C2: a scene whose metadata CLOUDY_PIXEL_PERCENTAGE lies strictly below a
configured positive threshold is never dispatched as a mask-computation work
unit, and because its worker mapset therefore never holds a mask file, the
copy phase creates its final cloud mask (and shadow mask, when enabled) as a
null raster. -/
theorem mask_threshold_skip (threshold : ℚ) (pctOf : String → ℚ)
    (scenes : List (String × S2SceneDict)) (sname : String) (s : S2SceneDict)
    (hpos : 0 < threshold) (hlt : pctOf sname < threshold)
    (workerProduced minSizeSet reclassOk : Bool) :
    computingClouds threshold (pctOf sname) = false ∧
    (sname, s) ∉ dispatchedScenes threshold pctOf scenes ∧
    finalMask (workerFileFound (computingClouds threshold (pctOf sname)) workerProduced)
      minSizeSet reclassOk s.clouds = .nullRaster ∧
    finalMask (workerFileFound (computingClouds threshold (pctOf sname)) workerProduced)
      minSizeSet reclassOk (s.shadows.getD "") = .nullRaster := by
  have hcc : computingClouds threshold (pctOf sname) = false := by
    simp [computingClouds, hpos, hlt]
  refine ⟨hcc, ?_, ?_, ?_⟩
  · intro hmem
    have := (List.mem_filter.mp hmem).2
    rw [hcc] at this
    cases this
  · simp [finalMask, workerFileFound, hcc]
  · simp [finalMask, workerFileFound, hcc]

/-- C2 witness at threshold 10 and cloud percentage 5. -/
theorem mask_threshold_skip_witness :
    (0 : ℚ) < 10 ∧ (fun _ : String => (5 : ℚ)) "S2A_20210615T103021" < 10 ∧
    (computingClouds 10 ((fun _ : String => (5 : ℚ)) "S2A_20210615T103021") = false ∧
      ("S2A_20210615T103021",
        ({ b02 := some "b2", b03 := some "b3", b04 := some "b4", b08 := some "b8",
           b8a := some "b8a", b11 := some "b11", b12 := some "b12",
           date := some ⟨2021, 6, 15, 10, 30, 21⟩,
           clouds := "S2A_20210615T103021_clouds",
           shadows := some "S2A_20210615T103021_shadows",
           metadata := some "m", extra := [] } : S2SceneDict)) ∉
        dispatchedScenes 10 (fun _ : String => (5 : ℚ))
          [("S2A_20210615T103021",
            { b02 := some "b2", b03 := some "b3", b04 := some "b4", b08 := some "b8",
              b8a := some "b8a", b11 := some "b11", b12 := some "b12",
              date := some ⟨2021, 6, 15, 10, 30, 21⟩,
              clouds := "S2A_20210615T103021_clouds",
              shadows := some "S2A_20210615T103021_shadows",
              metadata := some "m", extra := [] })] ∧
      finalMask (workerFileFound
          (computingClouds 10 ((fun _ : String => (5 : ℚ)) "S2A_20210615T103021")) true)
        true true "S2A_20210615T103021_clouds" = .nullRaster ∧
      finalMask (workerFileFound
          (computingClouds 10 ((fun _ : String => (5 : ℚ)) "S2A_20210615T103021")) true)
        true true ((some "S2A_20210615T103021_shadows").getD "") = .nullRaster) :=
  ⟨by decide, by decide,
    mask_threshold_skip 10 (fun _ => (5 : ℚ))
      [("S2A_20210615T103021",
        { b02 := some "b2", b03 := some "b3", b04 := some "b4", b08 := some "b8",
          b8a := some "b8a", b11 := some "b11", b12 := some "b12",
          date := some ⟨2021, 6, 15, 10, 30, 21⟩,
          clouds := "S2A_20210615T103021_clouds",
          shadows := some "S2A_20210615T103021_shadows",
          metadata := some "m", extra := [] })]
      "S2A_20210615T103021"
      { b02 := some "b2", b03 := some "b3", b04 := some "b4", b08 := some "b8",
        b8a := some "b8a", b11 := some "b11", b12 := some "b12",
        date := some ⟨2021, 6, 15, 10, 30, 21⟩,
        clouds := "S2A_20210615T103021_clouds",
        shadows := some "S2A_20210615T103021_shadows",
        metadata := some "m", extra := [] }
      (by decide) (by decide) true true true⟩

/-! ## Claim C3: positional timestamp extraction -/

/-- C3: for a name following the positional convention, the register line is
built by splitting on the underscore, taking the second segment, splitting
it on the T, and slicing the two halves into YYYY-MM-DD and HH:MM:SS
(together with the S2 band label on GRASS 7.9 or higher); and the emitted
band register file holds exactly one entry per distinct artifact name. -/
theorem import_register_timestamp (g79 : Bool) (name pre dt band d t : String)
    (h1 : pySplit '_' name = [pre, dt, band])
    (h2 : pySplit 'T' dt = [d, t]) :
    buildRegisterLine g79 name =
      .ok { name := name,
            dateStr := pySliceTo d 4 ++ "-" ++ pySlice d 4 6 ++ "-" ++ pySliceFrom d 6,
            timeStr := pySliceTo t 2 ++ ":" ++ pySlice t 2 4 ++ ":" ++ pySliceFrom t 4,
            bandTag :=
              if g79 then some ("S2_" ++ pyReplace (pyReplace band "B0" "") "B" "")
              else none } ∧
    ∀ maplist lines, buildRegisterFile g79 maplist = .ok lines →
      (lines.map RegisterLine.name).Nodup ∧
      ∀ n, n ∈ lines.map RegisterLine.name ↔ n ∈ maplist := by
  constructor
  · unfold buildRegisterLine
    rw [h1]
    simp only [pyIdx_succ, pyIdx_zero]
    rw [h2]
    simp only [pyIdx_succ, pyIdx_zero]
  · intro maplist lines h
    rw [registerFile_names g79 maplist lines h]
    exact ⟨pySet_nodup _, fun n => pySet_mem _ n⟩

/-- C3 witness: the name S2_20210615T103021_B04 yields the date 2021-06-15
and the time 10:30:21. -/
theorem import_register_timestamp_witness :
    pySplit '_' "S2_20210615T103021_B04" = ["S2", "20210615T103021", "B04"] ∧
    pySplit 'T' "20210615T103021" = ["20210615", "103021"] ∧
    buildRegisterLine true "S2_20210615T103021_B04" =
      .ok ⟨"S2_20210615T103021_B04", "2021-06-15", "10:30:21", some "S2_4"⟩ :=
  ⟨by decide, by decide,
    ((import_register_timestamp true "S2_20210615T103021_B04" "S2" "20210615T103021"
      "B04" "20210615" "103021" (by decide) (by decide)).1).trans (by decide)⟩

/-! ## Claim C4: resource budget -/

/-- C4 counterexample: with zero pending scenes the memory split divides by
nprocs_final = 0 and raises ZeroDivisionError, so the division is not
guarded as the claim states. -/
theorem import_budget_zero_units_division_error :
    importBudget 4 1000 0 = .error .zeroDivisionError := by decide

/-- C4 amended: when at least one scene is pending and at least one worker
is requested, the effective worker count is min(requested, pending) and the
per-worker memory is round(memory / effective), which then agrees with the
guarded form round(memory / max(effective, 1)); with zero pending units the
code instead raises ZeroDivisionError. -/
theorem import_budget_effective_workers (nprocs numberOfScenes : Nat) (memory : ℚ)
    (h1 : 1 ≤ numberOfScenes) (h2 : 1 ≤ nprocs) :
    importBudget nprocs memory numberOfScenes =
      .ok (min numberOfScenes nprocs,
        pyRound (memory / ((max (min numberOfScenes nprocs) 1 : Nat) : ℚ))) := by
  have hne : min numberOfScenes nprocs ≠ 0 := by omega
  have hmax : max (min numberOfScenes nprocs) 1 = min numberOfScenes nprocs := by omega
  simp [importBudget, hne, hmax]

/-- C4 witness: 3 pending scenes, 2 requested workers, 300 MB. -/
theorem import_budget_effective_workers_witness :
    1 ≤ 3 ∧ 1 ≤ 2 ∧ importBudget 2 300 3 = .ok (2, 150) := by
  refine ⟨by decide, by decide, ?_⟩
  have h := import_budget_effective_workers 2 3 300 (by decide) (by decide)
  rw [h]
  have h300 : (300 : ℚ) / ((max (min 3 2) 1 : Nat) : ℚ) = ((150 : ℤ) : ℚ) := by
    norm_num
  rw [h300, pyRound_intCast]
  norm_num

/-! ## Claim C5: malformed artifact names -/

/-- C5 counterexample: the name S2_20210615_B04 (second segment without a
time part) makes the register loop raise a plain IndexError that does not
mention the name, and the name S2_2021T10_B04 (wrong segment lengths) is
parsed best-effort into the malformed timestamp 2021-- 10:: instead of
being rejected. -/
theorem register_malformed_name_index_error :
    buildRegisterLine true "S2_20210615_B04" = .error .indexError ∧
    buildRegisterLine true "S2_2021T10_B04" =
      .ok ⟨"S2_2021T10_B04", "2021--", "10::", some "S2_4"⟩ := by
  constructor <;> decide

/-- C5 amended: malformed names are not rejected with a fatal error naming
the artifact: a name with fewer than three underscore segments, or whose
second segment lacks the date/time separator, raises an unhandled
IndexError, and wrong-length date/time segments are sliced best-effort
(shown by the counterexample), with no error path that surfaces the name. -/
theorem register_malformed_name_behavior (g79 : Bool) (name : String) :
    ((pySplit '_' name).length ≤ 2 → buildRegisterLine g79 name = .error .indexError) ∧
    (∀ p seg b rest, pySplit '_' name = p :: seg :: b :: rest →
      (pySplit 'T' seg).length = 1 → buildRegisterLine g79 name = .error .indexError) := by
  constructor
  · intro h
    unfold buildRegisterLine
    rw [pyIdx_of_length_le h]
  · intro p seg b rest hsplit hT
    obtain ⟨x, hx⟩ := List.length_eq_one.mp hT
    unfold buildRegisterLine
    rw [hsplit]
    simp only [pyIdx_succ, pyIdx_zero]
    rw [hx]
    simp [pyIdx]

/-- C5 witness: the malformed name S2_20210615_B04 hits the IndexError
branch of the amended statement. -/
theorem register_malformed_name_behavior_witness :
    pySplit '_' "S2_20210615_B04" = ["S2", "20210615", "B04"] ∧
    (pySplit 'T' "20210615").length = 1 ∧
    buildRegisterLine false "S2_20210615_B04" = .error .indexError :=
  ⟨by decide, by decide,
    (register_malformed_name_behavior false "S2_20210615_B04").2
      "S2" "20210615" "B04" [] (by decide) (by decide)⟩

/-! ## Claim C6: deduplication before register emission -/

/-- C6 counterexample: a cloud raster name collected twice is written twice
into the cloud register file of t.sentinel.import, so cloud-mask layers are
not deduplicated by name before emission. -/
theorem cloud_register_duplicate_entries :
    buildCloudRegisterFile ["S2A_20210615T103021_CLOUDS", "S2A_20210615T103021_CLOUDS"] =
      .ok [⟨"S2A_20210615T103021_CLOUDS", "2021-06-15", "10:30:21", none⟩,
           ⟨"S2A_20210615T103021_CLOUDS", "2021-06-15", "10:30:21", none⟩] := by
  decide

/-- C6 amended: only the band maps are deduplicated: the band register loop
runs over list(set(maplist)) and yields exactly one entry per distinct name,
whereas the cloud register loop runs over cloudlist as collected and yields
one entry per occurrence, duplicates included. -/
theorem register_dedup_bands_not_clouds :
    (∀ (g79 : Bool) (maplist : List String) (lines : List RegisterLine),
      buildRegisterFile g79 maplist = .ok lines →
      (lines.map RegisterLine.name).Nodup ∧
      ∀ n, n ∈ lines.map RegisterLine.name ↔ n ∈ maplist) ∧
    (∀ (cloudlist : List String) (lines : List RegisterLine),
      buildCloudRegisterFile cloudlist = .ok lines →
      lines.map RegisterLine.name = cloudlist) := by
  constructor
  · intro g79 maplist lines h
    rw [registerFile_names g79 maplist lines h]
    exact ⟨pySet_nodup _, fun n => pySet_mem _ n⟩
  · exact cloudRegisterFile_names

/-- C6 witness: a duplicated band name yields one line; a duplicated cloud
name yields a line per occurrence. -/
theorem register_dedup_bands_not_clouds_witness :
    buildRegisterFile false ["a_1T2_b", "a_1T2_b"] =
      .ok [⟨"a_1T2_b", "1--", "2::", none⟩] ∧
    (([(⟨"a_1T2_b", "1--", "2::", none⟩ : RegisterLine)].map RegisterLine.name).Nodup ∧
      [(⟨"a_1T2_b", "1--", "2::", none⟩ : RegisterLine)].map RegisterLine.name =
        ["a_1T2_b"]) ∧
    buildCloudRegisterFile ["c_1T2_d", "c_1T2_d"] =
      .ok [⟨"c_1T2_d", "1--", "2::", none⟩, ⟨"c_1T2_d", "1--", "2::", none⟩] ∧
    [(⟨"c_1T2_d", "1--", "2::", none⟩ : RegisterLine),
      ⟨"c_1T2_d", "1--", "2::", none⟩].map RegisterLine.name =
      ["c_1T2_d", "c_1T2_d"] := by
  refine ⟨by decide, ⟨?_, by decide⟩, by decide, ?_⟩
  · exact (register_dedup_bands_not_clouds.1 false ["a_1T2_b", "a_1T2_b"] _ (by decide)).1
  · exact register_dedup_bands_not_clouds.2 ["c_1T2_d", "c_1T2_d"] _ (by decide)

/-! ## Claim C7: incomplete band set is fatal -/

/-- C7: when the assembled scene dicts still hold a None among the seven
band keys or the date, the run aborts with the grass.fatal message right
after assembly, before any mask work is dispatched; the scene is not
skipped. -/
theorem mask_incomplete_band_set_fatal (os : Bool) (threshold : ℚ)
    (metadataOpt jsonFolder : String) (inputs : List RastInput)
    (scenes : List (String × S2SceneDict)) (warns : List String)
    (hok : assembleScenes os threshold metadataOpt jsonFolder inputs = .ok (scenes, warns))
    (hmiss : ∃ p ∈ scenes, sceneIncomplete p.2 = true) :
    maskScenePhase os threshold metadataOpt jsonFolder inputs =
      .error (.fatal "Not all needed bands are given") := by
  unfold maskScenePhase
  rw [hok]
  have hany : scenes.any (fun p => sceneIncomplete p.2) = true := by
    obtain ⟨p, hp, hinc⟩ := hmiss
    exact List.any_eq_true.mpr ⟨p, hp, hinc⟩
  simp [checkAllBands, hany]

/-- Input of the C7 witness: a single B02 raster. -/
def c7Inputs : List RastInput :=
  [⟨"S2A_20210615T103021_B02", "2021-06-15 10:30:21", "0", "4000"⟩]

/-- Scene dict assembled from c7Inputs: six band keys still missing. -/
def c7Scenes : List (String × S2SceneDict) :=
  [("S2A_20210615T103021",
    { b02 := some "S2A_20210615T103021_B02", b03 := none, b04 := none,
      b08 := none, b8a := none, b11 := none, b12 := none,
      date := some ⟨2021, 6, 15, 10, 30, 21⟩,
      clouds := "S2A_20210615T103021_clouds", shadows := none,
      metadata := none, extra := [] })]

/-- C7 witness: a single raster gives a scene with six band keys missing,
and the whole phase is fatal. -/
theorem mask_incomplete_band_set_fatal_witness :
    assembleScenes false 0 "default" "gf" c7Inputs = .ok (c7Scenes, []) ∧
    (∃ p ∈ c7Scenes, sceneIncomplete p.2 = true) ∧
    maskScenePhase false 0 "default" "gf" c7Inputs =
      .error (.fatal "Not all needed bands are given") :=
  ⟨by decide, by decide,
    mask_incomplete_band_set_fatal false 0 "default" "gf" c7Inputs c7Scenes []
      (by decide) (by decide)⟩

/-! ## Claim C10: all-NULL rasters are skipped with a warning -/

theorem bandValues_setBand_sub {s : S2SceneDict} {band rast v : String}
    (h : v ∈ bandValues (setBand s band rast)) : v ∈ bandValues s ∨ v = rast := by
  unfold setBand at h
  repeat' split at h
  all_goals simp only [bandValues, List.mem_append, List.mem_map,
    Option.toList_some, List.mem_singleton, List.mem_cons] at h ⊢
  all_goals aesop

theorem bandValues_setDate {scene1 scene2 : S2SceneDict} {time : String}
    (h : setDate scene1 time = .ok scene2) : bandValues scene2 = bandValues scene1 := by
  unfold setDate at h
  repeat' split at h
  all_goals cases h <;> rfl

theorem bandValues_newScene (os : Bool) (threshold : ℚ)
    (metadataOpt jsonFolder name rast : String) :
    bandValues (newScene os threshold metadataOpt jsonFolder name rast) = [] := by
  simp [newScene, bandValues]

theorem lookupScene_mem {acc : List (String × S2SceneDict)} {n : String}
    {s : S2SceneDict} (h : lookupScene acc n = some s) : (n, s) ∈ acc := by
  induction acc with
  | nil => cases h
  | cons q rest ih =>
    unfold lookupScene at h
    split at h
    · cases h
      rename_i heq
      exact heq ▸ List.mem_cons_self q rest
    · exact List.mem_cons_of_mem q (ih h)

theorem mem_setScene {acc : List (String × S2SceneDict)} {n : String}
    {v : S2SceneDict} {p : String × S2SceneDict} (h : p ∈ setScene acc n v) :
    p ∈ acc ∨ p = (n, v) := by
  induction acc with
  | nil =>
    unfold setScene at h
    simp at h
    exact Or.inr h
  | cons q rest ih =>
    unfold setScene at h
    split at h
    · rcases List.mem_cons.mp h with h' | h'
      · rename_i heq
        exact Or.inr (h' ▸ (by rw [heq]))
      · exact Or.inl (List.mem_cons_of_mem q h')
    · rcases List.mem_cons.mp h with h' | h'
      · exact Or.inl (h' ▸ List.mem_cons_self q rest)
      · rcases ih h' with h'' | h''
        · exact Or.inl (List.mem_cons_of_mem q h'')
        · exact Or.inr h''

/-- Every band value of the working scene dict already lies in the dict. -/
theorem bandValues_sceneFor (os : Bool) (threshold : ℚ)
    (metadataOpt jsonFolder : String) (acc : List (String × S2SceneDict))
    (sname rast v : String)
    (hv : v ∈ bandValues (sceneFor os threshold metadataOpt jsonFolder acc sname rast)) :
    ∃ q ∈ acc, v ∈ bandValues q.2 := by
  unfold sceneFor at hv
  rcases hlk : lookupScene acc sname with _ | s0
  · rw [hlk] at hv
    rw [bandValues_newScene] at hv
    cases hv
  · rw [hlk] at hv
    exact ⟨(sname, s0), lookupScene_mem hlk, hv⟩

/-- Every band value present after processing one raster was either already
present or is that raster's name. -/
theorem processRaster_bandValues (os : Bool) (threshold : ℚ)
    (metadataOpt jsonFolder : String) (acc : List (String × S2SceneDict))
    (r : RastInput) (acc2 : List (String × S2SceneDict))
    (h : processRaster os threshold metadataOpt jsonFolder acc r = .ok acc2) :
    ∀ p ∈ acc2, ∀ v ∈ bandValues p.2,
      (∃ q ∈ acc, v ∈ bandValues q.2) ∨ v = r.name := by
  unfold processRaster at h
  repeat' split at h
  all_goals cases h
  rename_i scene2 hdt
  intro p hp v hv
  rcases mem_setScene hp with hmem | rfl
  · exact Or.inl ⟨p, hmem, hv⟩
  · rw [bandValues_setDate hdt] at hv
    rcases bandValues_setBand_sub hv with hv' | rfl
    · exact Or.inl (bandValues_sceneFor _ _ _ _ _ _ _ _ hv')
    · exact Or.inr rfl

/-- Through a successful assembly run, every band value of the result comes
from the initial dict or from a processed raster that was not all NULL, and
the warning list keeps everything already on it, adding the NULL warning
for every all-NULL input. -/
theorem assembleLoop_invariants (os : Bool) (threshold : ℚ)
    (metadataOpt jsonFolder : String) :
    ∀ (inputs : List RastInput) (acc : List (String × S2SceneDict))
      (warns : List String) (scenes : List (String × S2SceneDict))
      (warns2 : List String),
      assembleLoop os threshold metadataOpt jsonFolder inputs acc warns =
        .ok (scenes, warns2) →
      (∀ p ∈ scenes, ∀ v ∈ bandValues p.2,
        (∃ q ∈ acc, v ∈ bandValues q.2) ∨
        ∃ r ∈ inputs, ¬(r.statMin = "NULL" ∧ r.statMax = "NULL") ∧ r.name = v) ∧
      (∀ w ∈ warns, w ∈ warns2) ∧
      (∀ r ∈ inputs, r.statMin = "NULL" → r.statMax = "NULL" →
        nullWarning r.name ∈ warns2) := by
  intro inputs
  induction inputs with
  | nil =>
    intro acc warns scenes warns2 h
    cases h
    exact ⟨fun p hp v hv => Or.inl ⟨p, hp, hv⟩, fun w hw => hw, fun r hr => absurd hr (by simp)⟩
  | cons r rest ih =>
    intro acc warns scenes warns2 h
    unfold assembleLoop at h
    by_cases hnull : r.statMin = "NULL" ∧ r.statMax = "NULL"
    · rw [if_pos (by simp [hnull.1, hnull.2])] at h
      obtain ⟨hband, hmono, hwarn⟩ := ih acc (warns ++ [nullWarning r.name]) scenes warns2 h
      refine ⟨?_, ?_, ?_⟩
      · intro p hp v hv
        rcases hband p hp v hv with h' | ⟨r', hr', hcond, hname⟩
        · exact Or.inl h'
        · exact Or.inr ⟨r', List.mem_cons_of_mem r hr', hcond, hname⟩
      · intro w hw
        exact hmono w (List.mem_append_left _ hw)
      · intro r' hr' h1 h2
        rcases List.mem_cons.mp hr' with rfl | hr''
        · exact hmono _ (List.mem_append_right _ (List.mem_singleton_self _))
        · exact hwarn r' hr'' h1 h2
    · rw [if_neg (by simpa using hnull)] at h
      cases hpr : processRaster os threshold metadataOpt jsonFolder acc r with
      | error e => rw [hpr] at h; cases h
      | ok acc2 =>
        rw [hpr] at h
        obtain ⟨hband, hmono, hwarn⟩ := ih acc2 warns scenes warns2 h
        refine ⟨?_, hmono, ?_⟩
        · intro p hp v hv
          rcases hband p hp v hv with ⟨q, hq, hvq⟩ | ⟨r', hr', hcond, hname⟩
          · rcases processRaster_bandValues os threshold metadataOpt jsonFolder
              acc r acc2 hpr q hq v hvq with h' | rfl
            · exact Or.inl h'
            · exact Or.inr ⟨r, List.mem_cons_self r rest, hnull, rfl⟩
          · exact Or.inr ⟨r', List.mem_cons_of_mem r hr', hcond, hname⟩
        · intro r' hr' h1 h2
          rcases List.mem_cons.mp hr' with rfl | hr''
          · exact absurd ⟨h1, h2⟩ hnull
          · exact hwarn r' hr'' h1 h2

theorem unitInputs_sub {s : S2SceneDict} {v : String}
    (hv : v ∈ unitInputs (unitOf s)) (hne : v ≠ "") : v ∈ bandValues s := by
  simp only [unitInputs, unitOf, List.mem_cons, List.not_mem_nil, or_false] at hv
  simp only [bandValues, List.mem_append]
  rcases hv with h | h | h | h | h | h | h
  · cases hb : s.b02 with
    | none => rw [hb] at h; exact absurd h hne
    | some x => rw [hb] at h; subst h; simp [hb]
  · cases hb : s.b03 with
    | none => rw [hb] at h; exact absurd h hne
    | some x => rw [hb] at h; subst h; simp [hb]
  · cases hb : s.b04 with
    | none => rw [hb] at h; exact absurd h hne
    | some x => rw [hb] at h; subst h; simp [hb]
  · cases hb : s.b08 with
    | none => rw [hb] at h; exact absurd h hne
    | some x => rw [hb] at h; subst h; simp [hb]
  · cases hb : s.b8a with
    | none => rw [hb] at h; exact absurd h hne
    | some x => rw [hb] at h; subst h; simp [hb]
  · cases hb : s.b11 with
    | none => rw [hb] at h; exact absurd h hne
    | some x => rw [hb] at h; subst h; simp [hb]
  · cases hb : s.b12 with
    | none => rw [hb] at h; exact absurd h hne
    | some x => rw [hb] at h; subst h; simp [hb]

/-- C10: an input raster whose min and max are both NULL in the current
region is skipped with a warning naming it, it never becomes a band value
of any assembled scene, and no dispatched mask work unit reads it. -/
theorem mask_null_raster_skipped (os : Bool) (threshold : ℚ)
    (metadataOpt jsonFolder : String) (inputs : List RastInput) (r : RastInput)
    (pctOf : String → ℚ) (scenes : List (String × S2SceneDict))
    (warns : List String)
    (hr : r ∈ inputs) (hmin : r.statMin = "NULL") (hmax : r.statMax = "NULL")
    (hnames : (inputs.map RastInput.name).Nodup) (hne : r.name ≠ "")
    (hok : assembleScenes os threshold metadataOpt jsonFolder inputs =
      .ok (scenes, warns)) :
    nullWarning r.name ∈ warns ∧
    (∀ p ∈ scenes, r.name ∉ bandValues p.2) ∧
    (∀ u ∈ dispatchUnits threshold pctOf scenes, r.name ∉ unitInputs u) := by
  obtain ⟨hband, _, hwarn⟩ := assembleLoop_invariants os threshold metadataOpt
    jsonFolder inputs [] [] scenes warns hok
  have hnotv : ∀ p ∈ scenes, r.name ∉ bandValues p.2 := by
    intro p hp hv
    rcases hband p hp r.name hv with ⟨q, hq, _⟩ | ⟨r', hr', hcond, hname⟩
    · cases hq
    · have : r' = r := List.inj_on_of_nodup_map hnames hr' hr hname
      rw [this] at hcond
      exact hcond ⟨hmin, hmax⟩
  refine ⟨hwarn r hr hmin hmax, hnotv, ?_⟩
  intro u hu hvin
  simp only [dispatchUnits, List.mem_map] at hu
  obtain ⟨p, hp, rfl⟩ := hu
  have hps : p ∈ scenes := List.mem_of_mem_filter hp
  exact hnotv p hps (unitInputs_sub hvin hne)

/-- The all-NULL raster of the C10 witness. -/
def c10Null : RastInput :=
  ⟨"S2A_20210615T103021_B02", "2021-06-15 10:30:21", "NULL", "NULL"⟩

/-- Inputs of the C10 witness: the all-NULL B02 and a valid B03. -/
def c10Inputs : List RastInput :=
  [c10Null, ⟨"S2A_20210615T103021_B03", "2021-06-15 10:30:21", "0", "1"⟩]

/-- Scenes assembled from c10Inputs: only the B03 raster was stored. -/
def c10Scenes : List (String × S2SceneDict) :=
  [("S2A_20210615T103021",
    { b02 := none, b03 := some "S2A_20210615T103021_B03", b04 := none,
      b08 := none, b8a := none, b11 := none, b12 := none,
      date := some ⟨2021, 6, 15, 10, 30, 21⟩,
      clouds := "S2A_20210615T103021_clouds", shadows := none,
      metadata := none, extra := [] })]

/-- C10 witness: an all-NULL B02 raster is skipped with a warning while its
sibling B03 is assembled, and no dispatched work unit reads the B02. -/
theorem mask_null_raster_skipped_witness :
    c10Null ∈ c10Inputs ∧
    (c10Inputs.map RastInput.name).Nodup ∧
    c10Null.name ≠ "" ∧
    assembleScenes false 0 "default" "gf" c10Inputs =
      .ok (c10Scenes, [nullWarning c10Null.name]) ∧
    (nullWarning c10Null.name ∈ [nullWarning c10Null.name] ∧
      (∀ p ∈ c10Scenes, c10Null.name ∉ bandValues p.2) ∧
      (∀ u ∈ dispatchUnits 0 (fun _ => (0 : ℚ)) c10Scenes,
        c10Null.name ∉ unitInputs u)) :=
  ⟨by decide, by decide, by decide, by decide,
    mask_null_raster_skipped false 0 "default" "gf" c10Inputs c10Null
      (fun _ => (0 : ℚ)) c10Scenes [nullWarning c10Null.name]
      (by decide) (by decide) (by decide) (by decide) (by decide) (by decide)⟩

/-! ## Claim C8: shared-namespace verification before fan-in -/

/-- C8: after the worker pools drain, both pipelines compare the current
mapset with the one recorded at the start; on mismatch the run aborts with
grass.fatal and no map is copied into the shared mapset (the copy lists are
never produced). -/
theorem mapset_isolation_check_fatal (startCurMapset curMapset : String)
    (h : curMapset ≠ startCurMapset) (mapsets : List MapsetContent)
    (scenes : List (String × S2SceneDict)) (fileFound : String → Bool)
    (minSizeClouds reclassOk : Bool) :
    copyImportResults startCurMapset curMapset mapsets =
      .error (.fatal ("New mapset is <" ++ curMapset ++ ">, but should be <" ++
        startCurMapset ++ ">")) ∧
    copyMaskResults startCurMapset curMapset scenes fileFound minSizeClouds reclassOk =
      .error (.fatal ("New mapset is <" ++ curMapset ++ ">, but should be <" ++
        startCurMapset ++ ">")) := by
  constructor
  · simp [copyImportResults, h]
  · simp [copyMaskResults, h]

/-- C8 witness: a worker that left the session on its private mapset. -/
theorem mapset_isolation_check_fatal_witness :
    "S2_import_1" ≠ "PERMANENT" ∧
    (copyImportResults "PERMANENT" "S2_import_1" [] =
      .error (.fatal ("New mapset is <S2_import_1>, but should be <PERMANENT>")) ∧
    copyMaskResults "PERMANENT" "S2_import_1" [] (fun _ => false) false false =
      .error (.fatal ("New mapset is <S2_import_1>, but should be <PERMANENT>"))) := by
  refine ⟨by decide, ?_⟩
  have h := mapset_isolation_check_fatal "PERMANENT" "S2_import_1" (by decide)
    [] [] (fun _ => false) false false
  constructor
  · exact h.1.trans (by decide)
  · exact h.2.trans (by decide)

/-! ## Claim C9: psutil failure propagates -/

/-- C9 counterexample: with psutil unavailable the memory check does not
fall back; freeRAM raises NameError and test_nprocs_memory propagates it,
terminating the run. -/
theorem freeram_psutil_missing_crash :
    test_nprocs_memory false 4 0 0 ⟨1, 300, []⟩ = .error .nameError := by decide

/-- C9 amended: when host memory introspection is unavailable (psutil
missing), the module-level import handler only warns, and the memory check
then always propagates the NameError raised inside freeRAM instead of
falling back to an unknown value. -/
theorem test_nprocs_memory_psutil_missing_propagates (cpuCount : Nat)
    (memAvailable swapFree : ℚ) (st : NpmState) :
    test_nprocs_memory false cpuCount memAvailable swapFree st = .error .nameError := by
  simp [test_nprocs_memory, freeRAM]

/-! ## Claim C1: date-keyed merge and one register entry per artifact -/

theorem updScene_name (os : Bool) (g : DateGroup) (s : SceneRec) :
    (updScene os g s).name = s.name := by
  unfold updScene
  repeat' split
  all_goals rfl

theorem updScene_date (os : Bool) (g : DateGroup) (s : SceneRec) :
    (updScene os g s).date = s.date := by
  unfold updScene
  repeat' split
  all_goals rfl

/-- The patch pass over all groups acts pointwise on the scene list. -/
theorem patchPass_eq_map (os : Bool) :
    ∀ (groups : List DateGroup) (scenes : List SceneRec),
      patchPass os scenes groups =
        scenes.map (fun s => groups.foldl (fun t g => updScene os g t) s) := by
  intro groups
  induction groups with
  | nil => intro scenes; simp [patchPass]
  | cons g gs ih =>
    intro scenes
    show patchPass os (scenes.map (updScene os g)) gs = _
    rw [ih, List.map_map]
    rfl

/-- Membership of a scene's name in a date group is exactly date equality,
as long as scene names are unique dict keys. -/
theorem mem_group_scenes_iff (scenes0 : List SceneRec)
    (hnames : (scenes0.map SceneRec.name).Nodup) (s : SceneRec)
    (hs : ∃ t ∈ scenes0, t.name = s.name ∧ t.date = s.date) (g : DateGroup)
    (hg : g.scenes =
      (scenes0.filter (fun u => decide (u.date = g.date))).map SceneRec.name) :
    s.name ∈ g.scenes ↔ s.date = g.date := by
  obtain ⟨t, ht, htn, htd⟩ := hs
  rw [hg]
  constructor
  · intro hmem
    rw [List.mem_map] at hmem
    obtain ⟨u, hu, hun⟩ := hmem
    rw [List.mem_filter] at hu
    have hud : u.date = g.date := by simpa using hu.2
    have hut : u = t :=
      List.inj_on_of_nodup_map hnames hu.1 ht (hun.trans htn.symm)
    rw [← htd, ← hut, hud]
  · intro hd
    rw [List.mem_map]
    refine ⟨t, ?_, htn⟩
    rw [List.mem_filter]
    exact ⟨ht, by simp [htd.trans hd]⟩

theorem hasBigGroup_cons (g : DateGroup) (gs : List DateGroup) (d : PyDateTime) :
    hasBigGroup (g :: gs) d =
      ((decide (g.date = d) && decide (1 < g.scenes.length)) || hasBigGroup gs d) := by
  simp [hasBigGroup]

/-- Characterization of the pointwise patch fold: names and dates are
unchanged, and the mask pointers end up at the patched names exactly when
some group of the scene's date has two or more members. -/
theorem foldl_updScene_char (os : Bool) (scenes0 : List SceneRec)
    (hnames : (scenes0.map SceneRec.name).Nodup) :
    ∀ (groups : List DateGroup),
      (∀ g ∈ groups, g.scenes =
        (scenes0.filter (fun u => decide (u.date = g.date))).map SceneRec.name) →
      ∀ (s : SceneRec), (∃ t ∈ scenes0, t.name = s.name ∧ t.date = s.date) →
      (groups.foldl (fun t g => updScene os g t) s).name = s.name ∧
      (groups.foldl (fun t g => updScene os g t) s).date = s.date ∧
      (groups.foldl (fun t g => updScene os g t) s).clouds =
        (if hasBigGroup groups s.date then cloudPatchName s.date else s.clouds) ∧
      (groups.foldl (fun t g => updScene os g t) s).shadows =
        (if os && hasBigGroup groups s.date then shadowPatchName s.date
         else s.shadows) := by
  intro groups
  induction groups with
  | nil =>
    intro _ s _
    simp [hasBigGroup]
  | cons g gs ih =>
    intro hgood s hs
    have hg := hgood g (List.mem_cons_self g gs)
    have hgs : ∀ g' ∈ gs, g'.scenes =
        (scenes0.filter (fun u => decide (u.date = g'.date))).map SceneRec.name :=
      fun g' hg' => hgood g' (List.mem_cons_of_mem _ hg')
    have hstep : (g :: gs).foldl (fun t g => updScene os g t) s =
        gs.foldl (fun t g => updScene os g t) (updScene os g s) := rfl
    have hs1name : (updScene os g s).name = s.name := updScene_name os g s
    have hs1date : (updScene os g s).date = s.date := updScene_date os g s
    have hs' : ∃ t ∈ scenes0, t.name = (updScene os g s).name ∧
        t.date = (updScene os g s).date := by
      obtain ⟨t, ht, htn, htd⟩ := hs
      exact ⟨t, ht, by rw [hs1name]; exact htn, by rw [hs1date]; exact htd⟩
    obtain ⟨hname, hdate, hclouds, hshadows⟩ := ih hgs (updScene os g s) hs'
    rw [hs1date] at hclouds hshadows
    have hcase :
        (g.date = s.date ∧ 1 < g.scenes.length ∧
          (updScene os g s).clouds = cloudPatchName s.date ∧
          (updScene os g s).shadows =
            (if os then shadowPatchName s.date else s.shadows)) ∨
        (¬(g.date = s.date ∧ 1 < g.scenes.length) ∧ updScene os g s = s) := by
      by_cases hlen : 1 < g.scenes.length
      · by_cases hgd : g.date = s.date
        · have hmem : s.name ∈ g.scenes :=
            (mem_group_scenes_iff scenes0 hnames s hs g hg).mpr hgd.symm
          left
          refine ⟨hgd, hlen, ?_, ?_⟩
          · show (updScene os g s).clouds = cloudPatchName s.date
            unfold updScene
            rw [if_pos hlen, if_pos hmem, hgd]
          · show (updScene os g s).shadows = _
            unfold updScene
            rw [if_pos hlen, if_pos hmem, hgd]
        · have hnm : s.name ∉ g.scenes := by
            rw [mem_group_scenes_iff scenes0 hnames s hs g hg]
            exact fun hc => hgd hc.symm
          right
          refine ⟨fun hc => hgd hc.1, ?_⟩
          show updScene os g s = s
          unfold updScene
          rw [if_pos hlen, if_neg hnm]
      · right
        refine ⟨fun hc => hlen hc.2, ?_⟩
        show updScene os g s = s
        unfold updScene
        rw [if_neg hlen]
    rw [hstep]
    refine ⟨by rw [hname, hs1name], by rw [hdate, hs1date], ?_, ?_⟩
    · rw [hclouds]
      rcases hcase with ⟨hgd, hlen, hc, _⟩ | ⟨hno, heq⟩
      · have hbigc : hasBigGroup (g :: gs) s.date = true := by
          rw [hasBigGroup_cons]
          simp [hgd, hlen]
        rw [hbigc]
        by_cases hbig : hasBigGroup gs s.date = true
        · simp [hbig]
        · rw [Bool.not_eq_true] at hbig
          rw [hbig]
          simpa using hc
      · have hfalse : (decide (g.date = s.date) && decide (1 < g.scenes.length)) =
            false := by
          rcases Decidable.not_and_iff_or_not.mp hno with h' | h' <;> simp [h']
        rw [hasBigGroup_cons, hfalse, Bool.false_or, heq]
    · rw [hshadows]
      rcases hcase with ⟨hgd, hlen, _, hsh⟩ | ⟨hno, heq⟩
      · have hbigc : hasBigGroup (g :: gs) s.date = true := by
          rw [hasBigGroup_cons]
          simp [hgd, hlen]
        rw [hbigc]
        cases os with
        | false => simpa using hsh
        | true =>
          by_cases hbig : hasBigGroup gs s.date = true
          · simp [hbig]
          · rw [Bool.not_eq_true] at hbig
            rw [hbig]
            simpa using hsh
      · have hfalse : (decide (g.date = s.date) && decide (1 < g.scenes.length)) =
            false := by
          rcases Decidable.not_and_iff_or_not.mp hno with h' | h' <;> simp [h']
        rw [hasBigGroup_cons, hfalse, Bool.false_or, heq]

theorem datesScenes_good (os : Bool) (scenes0 : List SceneRec) :
    ∀ g ∈ datesScenes os scenes0, g.scenes =
      (scenes0.filter (fun u => decide (u.date = g.date))).map SceneRec.name := by
  intro g hg
  unfold datesScenes at hg
  rw [List.mem_map] at hg
  obtain ⟨d, _, rfl⟩ := hg
  rfl

theorem hasBigGroup_datesScenes (os : Bool) (scenes0 : List SceneRec)
    (d : PyDateTime)
    (hcount : 2 ≤ (scenes0.filter (fun s => decide (s.date = d))).length) :
    hasBigGroup (datesScenes os scenes0) d = true := by
  have hne : scenes0.filter (fun s => decide (s.date = d)) ≠ [] := by
    intro hnil
    rw [hnil] at hcount
    simp at hcount
  obtain ⟨s, hsmem⟩ := List.exists_mem_of_ne_nil _ hne
  have hsf := List.mem_filter.mp hsmem
  have hsd : s.date = d := by simpa using hsf.2
  have hdmem : d ∈ scenes0.map SceneRec.date := List.mem_map.mpr ⟨s, hsf.1, hsd⟩
  unfold hasBigGroup
  rw [List.any_eq_true]
  refine ⟨_, List.mem_map.mpr ⟨d, (pySet_mem _ _).mpr hdmem, rfl⟩, ?_⟩
  rw [Bool.and_eq_true]
  refine ⟨by simp, ?_⟩
  rw [decide_eq_true_eq, List.length_map]
  exact lt_of_lt_of_le (by norm_num) hcount

theorem registerLoop_names_nodup (get : SceneRec → String) :
    ∀ (l : List SceneRec) (entries : List (String × String))
      (registered : List String),
      entries.map Prod.fst = registered → registered.Nodup →
      ((registerLoop get l entries registered).map Prod.fst).Nodup := by
  intro l
  induction l with
  | nil =>
    intro entries registered hinv hnd
    unfold registerLoop
    rw [hinv]
    exact hnd
  | cons s rest ih =>
    intro entries registered hinv hnd
    unfold registerLoop
    split
    · exact ih entries registered hinv hnd
    · rename_i hmem
      apply ih
      · rw [List.map_append, hinv]
        rfl
      · simp [List.nodup_append, hnd, hmem]

theorem registerLoop_names_mem (get : SceneRec → String) (x : String) :
    ∀ (l : List SceneRec) (entries : List (String × String))
      (registered : List String),
      entries.map Prod.fst = registered →
      (x ∈ (registerLoop get l entries registered).map Prod.fst ↔
        x ∈ registered ∨ ∃ s ∈ l, get s = x) := by
  intro l
  induction l with
  | nil =>
    intro entries registered hinv
    unfold registerLoop
    rw [hinv]
    simp
  | cons s rest ih =>
    intro entries registered hinv
    unfold registerLoop
    split
    · rename_i hmem
      rw [ih entries registered hinv]
      constructor
      · rintro (h | ⟨u, hu, hux⟩)
        · exact Or.inl h
        · exact Or.inr ⟨u, List.mem_cons_of_mem _ hu, hux⟩
      · rintro (h | ⟨u, hu, hux⟩)
        · exact Or.inl h
        · rcases List.mem_cons.mp hu with rfl | hu'
          · exact Or.inl (hux ▸ hmem)
          · exact Or.inr ⟨u, hu', hux⟩
    · rename_i hmem
      rw [ih (entries ++ [(get s, fmtFull s.date)]) (registered ++ [get s])
        (by rw [List.map_append, hinv]; rfl)]
      constructor
      · rintro (h | ⟨u, hu, hux⟩)
        · rcases List.mem_append.mp h with h' | h'
          · exact Or.inl h'
          · refine Or.inr ⟨s, List.mem_cons_self s rest, ?_⟩
            have : x = get s := by simpa using h'
            exact this.symm
        · exact Or.inr ⟨u, List.mem_cons_of_mem _ hu, hux⟩
      · rintro (h | ⟨u, hu, hux⟩)
        · exact Or.inl (List.mem_append_left _ h)
        · rcases List.mem_cons.mp hu with rfl | hu'
          · exact Or.inl (List.mem_append_right _ (by simp [hux]))
          · exact Or.inr ⟨u, hu', hux⟩

theorem registerMasks_names_nodup (get : SceneRec → String)
    (scenes : List SceneRec) :
    ((registerMasks get scenes).map Prod.fst).Nodup :=
  registerLoop_names_nodup get scenes [] [] rfl List.nodup_nil

theorem registerMasks_names_mem (get : SceneRec → String) (scenes : List SceneRec)
    (x : String) :
    x ∈ (registerMasks get scenes).map Prod.fst ↔ ∃ s ∈ scenes, get s = x := by
  unfold registerMasks
  rw [registerLoop_names_mem get x scenes [] [] rfl]
  simp

/-- C1: for a date shared by two or more scenes, the merge phase patches
the per-scene cloud masks into the single artifact
clouds_patched_YYYYMMDD, rewrites every member scene's cloud pointer (and
shadow pointer, when shadow output is enabled) to that artifact, and the
register file written afterwards holds exactly one entry with that
artifact name (and one shadow entry when enabled). -/
theorem mask_merge_one_register_entry_per_date (os : Bool)
    (scenes0 : List SceneRec) (d : PyDateTime)
    (hnames : (scenes0.map SceneRec.name).Nodup)
    (hcount : 2 ≤ (scenes0.filter (fun s => decide (s.date = d))).length) :
    (∀ s ∈ patchScenes os scenes0, s.date = d → s.clouds = cloudPatchName d) ∧
    (os = true → ∀ s ∈ patchScenes os scenes0, s.date = d →
      s.shadows = shadowPatchName d) ∧
    ((registerMasks SceneRec.clouds (patchScenes os scenes0)).map Prod.fst).count
      (cloudPatchName d) = 1 ∧
    (os = true →
      ((registerMasks SceneRec.shadows (patchScenes os scenes0)).map
        Prod.fst).count (shadowPatchName d) = 1) := by
  have hgood := datesScenes_good os scenes0
  have hbig := hasBigGroup_datesScenes os scenes0 d hcount
  have hmap : patchScenes os scenes0 =
      scenes0.map (fun s => (datesScenes os scenes0).foldl
        (fun t g => updScene os g t) s) :=
    patchPass_eq_map os (datesScenes os scenes0) scenes0
  have hchar := fun s0 (hs0 : s0 ∈ scenes0) =>
    foldl_updScene_char os scenes0 hnames (datesScenes os scenes0) hgood s0
      ⟨s0, hs0, rfl, rfl⟩
  have ha : ∀ s ∈ patchScenes os scenes0, s.date = d →
      s.clouds = cloudPatchName d := by
    intro s hsmem hsd
    rw [hmap, List.mem_map] at hsmem
    obtain ⟨s0, hs0, rfl⟩ := hsmem
    obtain ⟨_, hdate, hclouds, _⟩ := hchar s0 hs0
    have hs0d : s0.date = d := by rw [← hdate]; exact hsd
    rw [hclouds, hs0d, hbig]
    simp
  have hb : os = true → ∀ s ∈ patchScenes os scenes0, s.date = d →
      s.shadows = shadowPatchName d := by
    intro hos s hsmem hsd
    rw [hmap, List.mem_map] at hsmem
    obtain ⟨s0, hs0, rfl⟩ := hsmem
    obtain ⟨_, hdate, _, hshadows⟩ := hchar s0 hs0
    have hs0d : s0.date = d := by rw [← hdate]; exact hsd
    rw [hshadows, hs0d, hbig, hos]
    simp
  have hne : scenes0.filter (fun s => decide (s.date = d)) ≠ [] := by
    intro hnil
    rw [hnil] at hcount
    simp at hcount
  obtain ⟨t, htmem⟩ := List.exists_mem_of_ne_nil _ hne
  have htf := List.mem_filter.mp htmem
  have htd : t.date = d := by simpa using htf.2
  have htm : (datesScenes os scenes0).foldl (fun t g => updScene os g t) t ∈
      patchScenes os scenes0 := by
    rw [hmap]
    exact List.mem_map.mpr ⟨t, htf.1, rfl⟩
  have htdate : ((datesScenes os scenes0).foldl
      (fun t g => updScene os g t) t).date = d := by
    obtain ⟨_, hdate, _, _⟩ := hchar t htf.1
    rw [hdate, htd]
  refine ⟨ha, hb, ?_, ?_⟩
  · have hmem : cloudPatchName d ∈
        (registerMasks SceneRec.clouds (patchScenes os scenes0)).map Prod.fst := by
      rw [registerMasks_names_mem]
      exact ⟨_, htm, ha _ htm htdate⟩
    exact List.count_eq_one_of_mem (registerMasks_names_nodup _ _) hmem
  · intro hos
    have hmem : shadowPatchName d ∈
        (registerMasks SceneRec.shadows (patchScenes os scenes0)).map Prod.fst := by
      rw [registerMasks_names_mem]
      exact ⟨_, htm, hb hos _ htm htdate⟩
    exact List.count_eq_one_of_mem (registerMasks_names_nodup _ _) hmem

/-- The common acquisition date of the C1 witness scenes. -/
def c1Date : PyDateTime := ⟨2021, 6, 15, 10, 30, 21⟩

/-- Three scenes sharing one acquisition date, with their standalone mask
pointers. -/
def c1Scenes : List SceneRec :=
  [⟨"S2A_20210615T103021", c1Date, "S2A_20210615T103021_clouds",
    "S2A_20210615T103021_shadows"⟩,
   ⟨"S2B_20210615T103021", c1Date, "S2B_20210615T103021_clouds",
    "S2B_20210615T103021_shadows"⟩,
   ⟨"S2C_20210615T103021", c1Date, "S2C_20210615T103021_clouds",
    "S2C_20210615T103021_shadows"⟩]

/-- C1 witness: a date group of three scenes with shadow output enabled. -/
theorem mask_merge_one_register_entry_per_date_witness :
    (c1Scenes.map SceneRec.name).Nodup ∧
    2 ≤ (c1Scenes.filter (fun s => decide (s.date = c1Date))).length ∧
    ((∀ s ∈ patchScenes true c1Scenes, s.date = c1Date →
        s.clouds = cloudPatchName c1Date) ∧
      (true = true → ∀ s ∈ patchScenes true c1Scenes, s.date = c1Date →
        s.shadows = shadowPatchName c1Date) ∧
      ((registerMasks SceneRec.clouds (patchScenes true c1Scenes)).map
        Prod.fst).count (cloudPatchName c1Date) = 1 ∧
      (true = true →
        ((registerMasks SceneRec.shadows (patchScenes true c1Scenes)).map
          Prod.fst).count (shadowPatchName c1Date) = 1)) :=
  ⟨by decide, by decide,
    mask_merge_one_register_entry_per_date true c1Scenes c1Date
      (by decide) (by decide)⟩
